import Mathlib

/-!
Shallow embedding of the RDMA control-path daemon `RCtrl`
(src/core/rctrl.hh of rlibv2) and proofs about its request handlers
and worker loop.

The handlers `fetch_mr_handler`, `rc_handler`, the helper
`fetch_qp_attr`, `start_daemon` and the worker loop `daemon` are
translated from the source.  The resource registries (rmem::RegFactory,
qp::Factory, NicFactory) and the byte-level marshalling live outside
src/core/rctrl.hh; they are modelled from the spec's collaborator
contracts: registries are finite id-to-value maps with unique ids,
deserialization of a byte buffer is abstracted as an `Option`-valued
input (none = malformed bytes), and hardware outcomes (queue-pair
creation, connect) are supplied by an explicit oracle.
-/

namespace Rlib

/-- Reply status codes (proto::CallbackStatus, restricted to the three
values the control plane uses). -/
inductive CallbackStatus where
  | Ok
  | NotFound
  | WrongArg
deriving DecidableEq, Repr

/-- Memory-region attribute: address, length, protection key. -/
structure MRAttr where
  addr : Nat
  length : Nat
  key : Nat
deriving DecidableEq, Repr

/-- proto::MRReq: a fetch-MR request carries only the resource id. -/
structure MRReq where
  id : Nat
deriving DecidableEq, Repr

/-- proto::MRReply: status plus the attribute (meaningful only on Ok). -/
structure MRReply where
  status : CallbackStatus
  attr : Option MRAttr
deriving DecidableEq, Repr

/-- Connection attribute of one side of an RC queue pair. -/
structure RCAttr where
  qpn : Nat
  port : Nat
  lid : Nat
deriving DecidableEq, Repr

/-- Queue-pair creation settings carried in the request. -/
structure QPConfig where
  access_flags : Nat
  max_send : Nat
deriving DecidableEq, Repr

/-- proto::RCReq: resource id, create flag (a u8 on the wire, embedded
as Nat), NIC id, config and the remote side's attribute. -/
structure RCReq where
  id : Nat
  whether_create : Nat
  nic_id : Nat
  config : QPConfig
  attr : RCAttr
deriving DecidableEq, Repr

/-- proto::RCReply: status plus the local attribute (on Ok). -/
structure RCReply where
  status : CallbackStatus
  attr : Option RCAttr
deriving DecidableEq, Repr

/-- A registered RC queue pair; `my_attr` is the local attribute the
handler returns to callers. -/
structure RCQP where
  my_attr : RCAttr
deriving DecidableEq, Repr

/-- An opened NIC context. -/
structure Nic where
  dev_id : Nat
deriving DecidableEq, Repr

/-- A registry is a finite map from numeric resource ids to values,
embedded as an association list. -/
abbrev Registry (α : Type) : Type := List (Nat × α)

/-- Lookup of an id in a registry. -/
def regLookup {α : Type} : Registry α → Nat → Option α
  | [], _ => none
  | (k, v) :: rest, i => if k = i then some v else regLookup rest i

/-- Removal of an id from a registry (all entries with that id). -/
def regRemove {α : Type} (r : Registry α) (i : Nat) : Registry α :=
  List.filter (fun p => p.1 != i) r

/-- The mutable state of the RCtrl daemon: the three registries and the
running flag. -/
structure RCtrlState where
  registered_mrs : Registry MRAttr
  registered_qps : Registry RCQP
  opened_nics : Registry Nic
  running : Bool
deriving DecidableEq, Repr

/-- Modelled from the spec: rmem::RegFactory::get_attr_byid, a pure
lookup of a memory-region id returning the stored attribute. -/
def get_attr_byid (mrs : Registry MRAttr) (i : Nat) : Option MRAttr :=
  regLookup mrs i

/-- Modelled from the spec: NicFactory::find_opened_nic, a pure lookup
of an opened NIC context by id. -/
def find_opened_nic (nics : Registry Nic) (i : Nat) : Option Nic :=
  regLookup nics i

/-- Modelled from the spec: qp::Factory::query_rc, a pure lookup of a
registered queue pair by id. -/
def query_rc (qps : Registry RCQP) (i : Nat) : Option RCQP :=
  regLookup qps i

/-- Hardware outcomes supplied by the environment: the queue pair the
NIC produces on a creation attempt (none = hardware failure) and the
success of the subsequent connect call. -/
structure HwOracle where
  create_res : Option RCQP
  connect_ok : Bool
deriving DecidableEq, Repr

/-- Modelled from the spec: qp::Factory::create_and_register_rc.  If
the registry already holds the id the insertion is rejected; otherwise
the hardware creation outcome decides.  On success the new queue pair
is registered and returned; on any failure the registry is unchanged
(the caller receives none, mirroring a non-Ok status). -/
def create_and_register_rc (qps : Registry RCQP) (i : Nat) (_nic : Nic)
    (_config : QPConfig) (hw : HwOracle) : Option (RCQP × Registry RCQP) :=
  if (regLookup qps i).isSome then none
  else
    match hw.create_res with
    | none => none
    | some qp => some (qp, (i, qp) :: qps)

/-- Modelled from the spec: qp::Factory::deregister_rc removes (and
releases) the entry registered under the id. -/
def deregister_rc (qps : Registry RCQP) (i : Nat) : Registry RCQP :=
  regRemove qps i

/-- Modelled from the spec: RCQP::connect attempts to connect the queue
pair to the remote attribute; success or failure is a synchronous
hardware outcome, supplied by the oracle. -/
def qp_connect (_qp : RCQP) (_remote : RCAttr) (hw : HwOracle) : Bool :=
  hw.connect_ok

/-- The WrongArg reply of the RC handler. -/
def rcWrongArg : RCReply := { status := .WrongArg, attr := none }

/-- fetch_mr_handler (src/core/rctrl.hh, lines 83-99).  The byte buffer
is embedded as the result of Marshal::dedump: none for malformed bytes.
The handler is a pure read: the state is returned unchanged. -/
def fetch_mr_handler (s : RCtrlState) (b : Option MRReq) :
    MRReply × RCtrlState :=
  match b with
  | some req =>
    match get_attr_byid s.registered_mrs req.id with
    | some a => ({ status := .Ok, attr := some a }, s)
    | none => ({ status := .NotFound, attr := none }, s)
  | none => ({ status := .WrongArg, attr := none }, s)

/-- fetch_qp_attr (src/core/rctrl.hh, lines 105-113): query the QP
registry and return Ok with the local attribute, or NotFound. -/
def fetch_qp_attr (qps : Registry RCQP) (req : RCReq) : RCReply :=
  match query_rc qps req.id with
  | some rc => { status := .Ok, attr := some rc.my_attr }
  | none => { status := .NotFound, attr := none }

/-- rc_handler (src/core/rctrl.hh, lines 122-165).  The byte buffer is
embedded as the result of Marshal::dedump (none = malformed).  The
sanity check is the source's literal condition
`!(whether_create == 1 || whether_create != 0)`; the goto-WA error flow
becomes early returns carrying the state reached at that point. -/
def rc_handler (s : RCtrlState) (b : Option RCReq) (hw : HwOracle) :
    RCReply × RCtrlState :=
  match b with
  | none => (rcWrongArg, s)
  | some rc_req =>
    if ¬ (rc_req.whether_create = 1 ∨ rc_req.whether_create ≠ 0) then
      (rcWrongArg, s)
    else if rc_req.whether_create = 1 then
      match find_opened_nic s.opened_nics rc_req.nic_id with
      | none => (rcWrongArg, s)
      | some nic =>
        match create_and_register_rc s.registered_qps rc_req.id nic
            rc_req.config hw with
        | none => (rcWrongArg, s)
        | some (qp, qps1) =>
          if qp_connect qp rc_req.attr hw then
            (fetch_qp_attr qps1 rc_req, { s with registered_qps := qps1 })
          else
            (rcWrongArg,
              { s with registered_qps := deregister_rc qps1 rc_req.id })
    else
      (fetch_qp_attr s.registered_qps rc_req, s)

/-- start_daemon (src/core/rctrl.hh, lines 49-56): sets running := true,
issues a barrier and spawns the worker thread.  The C++ function is
declared to return bool, but no path of its body contains a return
statement, so the returned value is embedded as `none`. -/
def start_daemon (s : RCtrlState) : RCtrlState × Option Bool :=
  ({ s with running := true }, none)

/-- The worker loop of daemon (src/core/rctrl.hh, lines 70-78).  The
environment supplies the value of the running flag observed at the
i-th check and the count run_one_event_loop returns at the i-th
iteration.  `fuel` bounds the number of iterations the embedding may
unfold (the C++ loop is unbounded); `start` is the index of the next
flag check and `total` the count accumulated so far.  On loop exit the
result is the pair (number of iterations run, reported total). -/
def daemon_loop (fuel : Nat) (flag : Nat → Bool) (ev : Nat → Nat)
    (start total : Nat) : Option (Nat × Nat) :=
  match fuel with
  | 0 => none
  | f + 1 =>
    if flag start then
      daemon_loop f flag ev (start + 1) (total + ev start)
    else
      some (start, total)

/-- Looking up an id right after removing it yields nothing. -/
theorem regLookup_regRemove_self {α : Type} (r : Registry α) (i : Nat) :
    regLookup (regRemove r i) i = none := by
  induction r with
  | nil => rfl
  | cons hd tl ih =>
    unfold regRemove at *
    rw [List.filter_cons]
    by_cases h : hd.1 = i
    · simp [h, ih]
    · simp [regLookup, h, ih]

/-- C9: start_daemon is declared bool in the source but contains no
return statement on any path; in this total embedding every call sets
the running flag and yields no return value (none). -/
theorem start_daemon_missing_return (s : RCtrlState) :
    (start_daemon s).2 = none ∧ (start_daemon s).1.running = true :=
  ⟨rfl, rfl⟩

/-- C7: a byte buffer that fails to deserialize (embedded as none)
makes each of the two handlers reply WrongArg and leave the whole
state, in particular all three registries, unchanged. -/
theorem handlers_malformed_wrongarg (s : RCtrlState) (hw : HwOracle) :
    (fetch_mr_handler s none).1.status = .WrongArg
    ∧ (fetch_mr_handler s none).2 = s
    ∧ (rc_handler s none hw).1.status = .WrongArg
    ∧ (rc_handler s none hw).2 = s :=
  ⟨rfl, rfl, rfl, rfl⟩

/-- C4: the fetch-MR handler replies WrongArg on deserialization
failure, Ok with the stored attribute when the id is present in the MR
registry, and NotFound when it is absent; in every case the state is
unchanged (pure read). -/
theorem fetch_mr_handler_spec (s : RCtrlState) (b : Option MRReq) :
    (b = none →
      fetch_mr_handler s b = ({ status := .WrongArg, attr := none }, s))
    ∧ (∀ req, b = some req →
        (∀ a, get_attr_byid s.registered_mrs req.id = some a →
          fetch_mr_handler s b = ({ status := .Ok, attr := some a }, s))
        ∧ (get_attr_byid s.registered_mrs req.id = none →
          fetch_mr_handler s b
            = ({ status := .NotFound, attr := none }, s))) := by
  refine ⟨fun hb => by simp [hb, fetch_mr_handler], ?_⟩
  intro req hb
  subst hb
  constructor
  · intro a ha
    simp [fetch_mr_handler, ha]
  · intro ha
    simp [fetch_mr_handler, ha]

/-- A concrete memory-region attribute used by witnesses. -/
def mrA : MRAttr := { addr := 100, length := 8, key := 3 }

/-- A concrete state whose MR registry holds id 1, used by witnesses. -/
def mrState : RCtrlState :=
  { registered_mrs := [(1, mrA)], registered_qps := [], opened_nics := [],
    running := true }

/-- A concrete state with all three registries empty. -/
def emptyState : RCtrlState :=
  { registered_mrs := [], registered_qps := [], opened_nics := [],
    running := true }

/-- A concrete queue-pair creation config used by witnesses. -/
def cfg0 : QPConfig := { access_flags := 0, max_send := 0 }

/-- A concrete remote connection attribute used by witnesses. -/
def attr0 : RCAttr := { qpn := 0, port := 0, lid := 0 }

/-- A concrete create request naming nic id 5 and resource id 2. -/
def reqNic5 : RCReq :=
  { id := 2, whether_create := 1, nic_id := 5, config := cfg0, attr := attr0 }

/-- An oracle on which hardware creation fails and connect fails. -/
def hwNone : HwOracle := { create_res := none, connect_ok := false }

/-- Witness for C4: a registry holding id 1 answers a fetch of id 1
with Ok and the stored attribute. -/
theorem fetch_mr_handler_spec_witness :
    fetch_mr_handler mrState (some { id := 1 })
      = ({ status := .Ok, attr := some mrA }, mrState) :=
  ((fetch_mr_handler_spec mrState (some { id := 1 })).2 { id := 1 } rfl).1
    mrA rfl

/-- C5: on the create path, a nic id absent from the NIC registry makes
rc_handler reply WrongArg with the state (in particular the QP
registry) unchanged. -/
theorem rc_handler_missing_nic_wrongarg (s : RCtrlState) (req : RCReq)
    (hw : HwOracle) (hflag : req.whether_create = 1)
    (hnic : find_opened_nic s.opened_nics req.nic_id = none) :
    rc_handler s (some req) hw = (rcWrongArg, s) := by
  simp [rc_handler, hflag, hnic]

/-- Witness for C5: an empty NIC registry rejects a create request. -/
theorem rc_handler_missing_nic_wrongarg_witness :
    rc_handler emptyState (some reqNic5) hwNone = (rcWrongArg, emptyState) :=
  rc_handler_missing_nic_wrongarg emptyState reqNic5 hwNone rfl rfl

/-- A concrete opened NIC under id 5, used by witnesses. -/
def nic5 : Nic := { dev_id := 5 }

/-- A concrete state whose NIC registry holds id 5 and whose QP
registry is empty. -/
def nicState : RCtrlState :=
  { registered_mrs := [], registered_qps := [], opened_nics := [(5, nic5)],
    running := true }

/-- A concrete queue pair the oracle can produce. -/
def qpA : RCQP := { my_attr := { qpn := 10, port := 1, lid := 2 } }

/-- An oracle on which creation succeeds but connect fails. -/
def hwConnFail : HwOracle := { create_res := some qpA, connect_ok := false }

/-- An oracle on which creation and connect both succeed. -/
def hwOk : HwOracle := { create_res := some qpA, connect_ok := true }

/-- C1: on the create path, when the NIC is found and the queue pair is
created and registered but the subsequent connect fails, rc_handler
deregisters the queue pair under the resource id and replies WrongArg;
afterwards the QP registry holds no entry for that id. -/
theorem rc_handler_connect_fail_rollback (s : RCtrlState) (req : RCReq)
    (hw : HwOracle) (nic : Nic) (qp : RCQP)
    (hflag : req.whether_create = 1)
    (hnic : find_opened_nic s.opened_nics req.nic_id = some nic)
    (hfresh : regLookup s.registered_qps req.id = none)
    (hhw : hw.create_res = some qp)
    (hconn : hw.connect_ok = false) :
    (rc_handler s (some req) hw).1 = rcWrongArg
    ∧ regLookup (rc_handler s (some req) hw).2.registered_qps req.id
        = none := by
  have hstep : (rc_handler s (some req) hw).1 = rcWrongArg
      ∧ (rc_handler s (some req) hw).2.registered_qps
        = deregister_rc ((req.id, qp) :: s.registered_qps) req.id := by
    simp [rc_handler, hflag, hnic, create_and_register_rc, hfresh, hhw,
      qp_connect, hconn]
  refine ⟨hstep.1, ?_⟩
  rw [hstep.2]
  exact regLookup_regRemove_self _ _

/-- Witness for C1: a connect failure right after a successful creation
rolls the QP registry back to hold nothing under the id. -/
theorem rc_handler_connect_fail_rollback_witness :
    (rc_handler nicState (some reqNic5) hwConnFail).1 = rcWrongArg
    ∧ regLookup
        (rc_handler nicState (some reqNic5) hwConnFail).2.registered_qps
        reqNic5.id = none :=
  rc_handler_connect_fail_rollback nicState reqNic5 hwConnFail nic5 qpA
    rfl rfl rfl rfl rfl

/-- C6: on the create path with the NIC found, a failing
create-and-register step (the QP registry already holds the id, or the
hardware creation fails) makes rc_handler reply WrongArg with the state
unchanged, so no partial state is retained. -/
theorem rc_handler_create_fail_wrongarg (s : RCtrlState) (req : RCReq)
    (hw : HwOracle) (nic : Nic)
    (hflag : req.whether_create = 1)
    (hnic : find_opened_nic s.opened_nics req.nic_id = some nic)
    (hfail : (regLookup s.registered_qps req.id).isSome = true
      ∨ hw.create_res = none) :
    rc_handler s (some req) hw = (rcWrongArg, s) := by
  have hcr : create_and_register_rc s.registered_qps req.id nic
      req.config hw = none := by
    rcases hfail with h | h
    · simp [create_and_register_rc, h]
    · simp [create_and_register_rc, h]
  simp [rc_handler, hflag, hnic, hcr]

/-- Witness for C6: with the NIC present but hardware creation failing,
the handler replies WrongArg and the state is untouched. -/
theorem rc_handler_create_fail_wrongarg_witness :
    rc_handler nicState (some reqNic5) hwNone = (rcWrongArg, nicState) :=
  rc_handler_create_fail_wrongarg nicState reqNic5 hwNone nic5 rfl rfl
    (Or.inr rfl)

/-- C10: a deserialized request whose create flag is neither 0 nor 1
passes the source's literal sanity check, skips the creation step
entirely, leaves the state unchanged, and is answered by the
unconditional QP fetch: Ok with the stored attribute when the id is
registered, NotFound otherwise. -/
theorem rc_handler_other_flag_fetch_only (s : RCtrlState) (req : RCReq)
    (hw : HwOracle) (h0 : req.whether_create ≠ 0)
    (h1 : req.whether_create ≠ 1) :
    rc_handler s (some req) hw = (fetch_qp_attr s.registered_qps req, s)
    ∧ (∀ qp, query_rc s.registered_qps req.id = some qp →
        fetch_qp_attr s.registered_qps req
          = { status := .Ok, attr := some qp.my_attr })
    ∧ (query_rc s.registered_qps req.id = none →
        fetch_qp_attr s.registered_qps req
          = { status := .NotFound, attr := none }) := by
  refine ⟨?_, ?_, ?_⟩
  · simp [rc_handler, h0, h1]
  · intro qp hqp
    simp [fetch_qp_attr, hqp]
  · intro hqp
    simp [fetch_qp_attr, hqp]

/-- A concrete request with the out-of-range create flag 2. -/
def reqFlag2 : RCReq :=
  { id := 9, whether_create := 2, nic_id := 0, config := cfg0, attr := attr0 }

/-- Witness for C10: flag value 2 against an empty QP registry is
handled as a fetch and answered NotFound, with the state unchanged. -/
theorem rc_handler_other_flag_fetch_only_witness :
    rc_handler emptyState (some reqFlag2) hwNone
      = (fetch_qp_attr emptyState.registered_qps reqFlag2, emptyState)
    ∧ fetch_qp_attr emptyState.registered_qps reqFlag2
        = { status := .NotFound, attr := none } := by
  have h := rc_handler_other_flag_fetch_only emptyState reqFlag2 hwNone
    (by decide) (by decide)
  exact ⟨h.1, h.2.2 rfl⟩

/-- C2: evaluation of the code at the failing input of the claim that
any create-flag value other than the two recognized ones is rejected as
WrongArg.  On the concrete flag value 2 with an empty QP registry the
handler does not reply WrongArg: the literal check
`!(whether_create == 1 || whether_create != 0)` passes every nonzero
value, and the request falls through to the fetch, replying NotFound. -/
theorem rc_handler_flag_two_not_wrongarg :
    (rc_handler emptyState (some reqFlag2) hwNone).1.status
        = CallbackStatus.NotFound
    ∧ (rc_handler emptyState (some reqFlag2) hwNone).1.status
        ≠ CallbackStatus.WrongArg := by
  decide

/-- A concrete create request for resource id 4 on nic 5. -/
def reqCreate4 : RCReq :=
  { id := 4, whether_create := 1, nic_id := 5, config := cfg0, attr := attr0 }

/-- The same request with the fetch-only flag value 0. -/
def reqFetch4 : RCReq :=
  { id := 4, whether_create := 0, nic_id := 5, config := cfg0, attr := attr0 }

/-- C3: evaluation of the code at the failing input of the
create-then-refetch claim.  The creation request succeeds and replies
Ok with the attribute, but the subsequent fetch-only request (create
flag 0) for the same id replies WrongArg instead of Ok with the same
attribute: the literal sanity check rejects exactly the flag value 0. -/
theorem rc_create_then_fetch_flag0_wrongarg :
    (rc_handler nicState (some reqCreate4) hwOk).1
        = { status := .Ok, attr := some qpA.my_attr }
    ∧ (rc_handler (rc_handler nicState (some reqCreate4) hwOk).2
          (some reqFetch4) hwOk).1
        = { status := .WrongArg, attr := none } := by
  decide

/-- The worker loop resumed at index `start` with accumulator `total`:
if the running flag reads true at the next k observations and false at
the one after, and fuel suffices, the loop performs exactly k more
iterations, one event-loop call each, and exits reporting the
accumulated total. -/
theorem daemon_loop_go (flag : Nat → Bool) (ev : Nat → Nat) :
    ∀ (k fuel start total : Nat),
      (∀ i, i < k → flag (start + i) = true) →
      flag (start + k) = false → k < fuel →
      daemon_loop fuel flag ev start total
        = some (start + k, total + ∑ i in Finset.range k, ev (start + i)) := by
  intro k
  induction k with
  | zero =>
    intro fuel start total _ hstop hfuel
    cases fuel with
    | zero => omega
    | succ f =>
      rw [Nat.add_zero] at hstop
      simp [daemon_loop, hstop]
  | succ k ih =>
    intro fuel start total hrun hstop hfuel
    cases fuel with
    | zero => omega
    | succ f =>
      have h0 : flag start = true := by
        have h := hrun 0 (Nat.succ_pos k)
        simpa using h
      have hrun1 : ∀ i, i < k → flag (start + 1 + i) = true := by
        intro i hi
        have h := hrun (i + 1) (by omega)
        rw [show start + 1 + i = start + (i + 1) by omega]
        exact h
      have hstop1 : flag (start + 1 + k) = false := by
        rw [show start + 1 + k = start + (k + 1) by omega]
        exact hstop
      have hsum : ∑ i in Finset.range (k + 1), ev (start + i)
          = ev start + ∑ i in Finset.range k, ev (start + 1 + i) := by
        have h1 : ∑ i in Finset.range k, ev (start + (i + 1))
            = ∑ i in Finset.range k, ev (start + 1 + i) :=
          Finset.sum_congr rfl (fun i _ => by
            rw [show start + (i + 1) = start + 1 + i from by omega])
        rw [Finset.sum_range_succ', h1, Nat.add_comm]
        norm_num
      simp only [daemon_loop, h0, if_true]
      rw [ih f (start + 1) (total + ev start) hrun1 hstop1 (by omega)]
      rw [show start + (k + 1) = start + 1 + k by omega, hsum,
        ← Nat.add_assoc]

/-- C8: while the running flag is observed true the worker loop calls
run_one_event_loop exactly once per iteration, with no other action
between iterations, accumulating the returned counts; at the first
false observation the loop exits and reports the cumulative processed
count, having performed exactly as many event-loop calls as there were
true observations. -/
theorem daemon_loop_busy_poll (flag : Nat → Bool) (ev : Nat → Nat)
    (n fuel : Nat) (hrun : ∀ i, i < n → flag i = true)
    (hstop : flag n = false) (hfuel : n < fuel) :
    daemon_loop fuel flag ev 0 0
      = some (n, ∑ i in Finset.range n, ev i) := by
  have h := daemon_loop_go flag ev n fuel 0 0
    (by simpa using hrun) (by simpa using hstop) hfuel
  simpa using h

/-- Witness for C8: a flag that reads true twice and then false, with
the event loop returning 3 then 4, yields exactly two iterations and a
reported total of 7. -/
theorem daemon_loop_busy_poll_witness :
    daemon_loop 3 (fun i => decide (i < 2)) (fun i => i + 3) 0 0
      = some (2, 7) := by
  have h := daemon_loop_busy_poll (fun i => decide (i < 2))
    (fun i => i + 3) 2 3 (fun i hi => by simp [hi]) (by decide) (by decide)
  rw [h]
  norm_num [Finset.sum_range_succ]

end Rlib
